import Mathlib

/-!
Shallow embedding of `src/systray.c` (awesome window manager systray core).

The C code is single-threaded and message-driven; every handler runs to
completion.  We model each handler as a pure function from the global state
(`awesome_t`, the fields of `globalconf` this fragment touches) and the
replies of the external collaborators (geometry query, embed-info property
query, atom interning, window creation) to the new state, the ordered trace
of outgoing side-effect calls, and the `int` status the C function returns.
-/

namespace Systray

/-- `#define SYSTEM_TRAY_REQUEST_DOCK 0` (src/systray.c line 32). -/
def SYSTEM_TRAY_REQUEST_DOCK : Nat := 0

/-- ICCCM `XCB_WM_WITHDRAWN_STATE` (xcb_icccm.h collaborator header): value 0. -/
def XCB_WM_WITHDRAWN_STATE : Nat := 0

/-- `XCB_CURRENT_TIME` (xcb.h collaborator header): value 0, "claim now". -/
def XCB_CURRENT_TIME : Nat := 0

/-- Modelled from the spec: the XEMBED "request focus" sub-message code
recognized by the focus handler.  The constant lives in `common/xembed.h`,
which is not under `src/`; the XEMBED standard assigns it the value 3. -/
def XEMBED_REQUEST_FOCUS : Nat := 3

/-- Modelled from the spec: the fixed "focus follows current widget" policy
constant (`XEMBED_FOCUS_CURRENT` of `common/xembed.h`, not under `src/`);
the XEMBED standard assigns it the value 0. -/
def XEMBED_FOCUS_CURRENT : Nat := 0

/-- Modelled from the spec: the "wants to be mapped" bit of the embedding
metadata flags (`XEMBED_MAPPED` of `common/xembed.h`, not under `src/`);
the XEMBED standard assigns it the value `1 << 0`. -/
def XEMBED_MAPPED : Nat := 1

/-- `XCB_EVENT_MASK_STRUCTURE_NOTIFY` (xcb.h collaborator header). -/
def XCB_EVENT_MASK_STRUCTURE_NOTIFY : Nat := 131072

/-- `XCB_EVENT_MASK_PROPERTY_CHANGE` (xcb.h collaborator header). -/
def XCB_EVENT_MASK_PROPERTY_CHANGE : Nat := 4194304

/-- `XCB_EVENT_MASK_ENTER_WINDOW` (xcb.h collaborator header). -/
def XCB_EVENT_MASK_ENTER_WINDOW : Nat := 16

/-- The event mask `select_input_val` of `systray_request_handle`
(src/systray.c lines 78-83). -/
def select_input_val : Nat :=
  XCB_EVENT_MASK_STRUCTURE_NOTIFY ||| XCB_EVENT_MASK_PROPERTY_CHANGE
    ||| XCB_EVENT_MASK_ENTER_WINDOW

/-- Modelled from the spec: the `MIN` macro used at src/systray.c line 105
lives in a common utility header that is not under `src/`; it is the
standard C minimum `((a) < (b) ? (a) : (b))`. -/
def MIN (a b : Nat) : Nat := if a < b then a else b

/-- `xembed_info_t` (declared in `common/xembed.h`): the embedding metadata
`{version, flags}` described by the spec's data model. -/
structure xembed_info_t where
  version : Nat
  flags : Nat
deriving Repr, DecidableEq

/-- `xembed_window_t` (declared in `common/xembed.h`): one registry entry, as
built at src/systray.c lines 90-97. -/
structure xembed_window_t where
  win : Nat
  phys_screen : Nat
  info : xembed_info_t
deriving Repr, DecidableEq

/-- The slice of a per-screen record (`globalconf.screens[i]`) this fragment
reads: the systray simple window, `none` modelling a NULL pointer. -/
structure screen_t where
  systray : Option Nat
deriving Repr, DecidableEq

/-- The slice of `awesome_t globalconf` touched by src/systray.c:
the embedded-window registry, the per-screen table, and
`screens_info->nscreen` (the count used by the invalidation loop). -/
structure awesome_t where
  embedded : List xembed_window_t
  screens : List screen_t
  nscreen : Nat
deriving Repr, DecidableEq

/-- The cache kind passed to `widget_invalidate_cache`.  The enumeration
lives in `widget.h`, which is not under `src/`; only the "embedded" kind
(`WIDGET_CACHE_EMBEDDED`) is used here, per the spec's collaborator contract
`invalidate(screenIndex, cacheKind="embedded")`. -/
inductive CacheKind where
  | embedded
deriving Repr, DecidableEq

/-- One outgoing call to an external collaborator, in the order the handler
issues them. -/
inductive Effect where
  | changeWindowAttributes (win : Nat) (mask : Nat)
  | setState (win : Nat) (state : Nat)
  | embeddedNotify (win : Nat) (towin : Nat) (version : Nat)
  | mapWindow (win : Nat)
  | invalidateCache (screen : Nat) (kind : CacheKind)
  | focusIn (win : Nat) (focusType : Nat)
  | getGeometry (win : Nat)
deriving Repr, DecidableEq

/-- Recognizer for cache-invalidation effects, used to isolate the
invalidation fan-out inside a trace. -/
def Effect.isInvalidate : Effect → Bool
  | Effect.invalidateCache _ _ => true
  | _ => false

/-- Recognizer for embedded-notification handshake effects. -/
def Effect.isNotify : Effect → Bool
  | Effect.embeddedNotify _ _ _ => true
  | _ => false

/-- The payload slots of `xcb_client_message_event_t` read by the handlers:
`ev->window` (the sender) and `ev->data.data32[1]`, `ev->data.data32[2]`. -/
structure xcb_client_message_event_t where
  window : Nat
  data1 : Nat
  data2 : Nat
deriving Repr, DecidableEq

/-- Modelled from the spec: `xembed_window_list_append` (common/xembed.h, not
under `src/`).  The spec states the append is idempotent by handle: "if
already present, this step must not create a duplicate — treat re-dock of a
known handle as a no-op update of its metadata"; otherwise the record is
appended to the ordered sequence. -/
def xembed_window_list_append (l : List xembed_window_t) (em : xembed_window_t) :
    List xembed_window_t :=
  if l.any (fun e => e.win = em.win) then
    l.map (fun e => if e.win = em.win then em else e)
  else
    l ++ [em]

/-- `systray_request_handle` (src/systray.c lines 73-114).

External replies appear as parameters: `XEMBED_VERSION` is the locally
supported protocol version (a constant of `common/xembed.h`, not under
`src/`, so kept symbolic), and `queried_info` is the value
`xembed_info_get` writes when the caller passes no `info` (per the spec,
a failed property query degrades to a zero-valued record, so the reply is
total).

When `phys_screen` is outside the screen table the C expression
`globalconf.screens[phys_screen].systray` reads out of bounds; we model
that read as finding no systray window. -/
def systray_request_handle (conf : awesome_t) (XEMBED_VERSION : Nat)
    (embed_win : Nat) (phys_screen : Nat) (info : Option xembed_info_t)
    (queried_info : xembed_info_t) :
    awesome_t × List Effect × Int :=
  let emInfo := match info with
    | some i => i
    | none => queried_info
  let em : xembed_window_t :=
    { win := embed_win, phys_screen := phys_screen, info := emInfo }
  let embedded := xembed_window_list_append conf.embedded em
  let trayOpt : Option Nat :=
    match conf.screens[phys_screen]? with
    | some s => s.systray
    | none => none
  let notifyEffs : List Effect :=
    match trayOpt with
    | some tray =>
        [Effect.embeddedNotify em.win tray (MIN XEMBED_VERSION em.info.version)]
    | none => []
  let mapEffs : List Effect :=
    if em.info.flags &&& XEMBED_MAPPED ≠ 0 then [Effect.mapWindow em.win] else []
  let invEffs : List Effect :=
    (List.range conf.nscreen).map (fun i => Effect.invalidateCache i CacheKind.embedded)
  ({ conf with embedded := embedded },
   Effect.changeWindowAttributes embed_win select_input_val ::
     Effect.setState embed_win XCB_WM_WITHDRAWN_STATE ::
     (notifyEffs ++ mapEffs ++ invEffs),
   0)

/-- The screen scan of `systray_process_client_message` (src/systray.c lines
136-137): walk the ordered root list, incrementing the counter while the
iterator has screens left and the current root differs; the post-loop
counter is the first matching index, or the list's length when nothing
matches. -/
def screen_root_scan : List Nat → Nat → Nat
  | [], _ => 0
  | r :: rest, root => if r = root then 0 else screen_root_scan rest root + 1

/-- `systray_process_client_message` (src/systray.c lines 120-145).

External replies as parameters: `roots` is the ordered list of screen roots
delivered by `xcb_setup_roots_iterator`, and `geom_reply` is the root field
of the geometry reply for the sender window, `none` when
`xcb_get_geometry_reply` returns NULL. -/
def systray_process_client_message (conf : awesome_t) (roots : List Nat)
    (geom_reply : Option Nat) (XEMBED_VERSION : Nat)
    (queried_info : xembed_info_t) (ev : xcb_client_message_event_t) :
    awesome_t × List Effect × Int :=
  if ev.data1 = SYSTEM_TRAY_REQUEST_DOCK then
    match geom_reply with
    | none => (conf, [Effect.getGeometry ev.window], (-1 : Int))
    | some root =>
        let screen_nbr := screen_root_scan roots root
        let r := systray_request_handle conf XEMBED_VERSION ev.data2 screen_nbr
          none queried_info
        (r.1, Effect.getGeometry ev.window :: r.2.1, 0)
  else
    (conf, [], 0)

/-- `xembed_process_client_message` (src/systray.c lines 151-161). -/
def xembed_process_client_message (conf : awesome_t)
    (ev : xcb_client_message_event_t) :
    awesome_t × List Effect × Int :=
  if ev.data1 = XEMBED_REQUEST_FOCUS then
    (conf, [Effect.focusIn ev.window XEMBED_FOCUS_CURRENT], 0)
  else
    (conf, [], 0)

/-- One outgoing call issued by `systray_init`. -/
inductive InitEffect where
  | internAtomRequest (name : String)
  | createSimpleWindow (phys_screen : Nat)
  | internAtomReply (atom : Nat)
  | setSelectionOwner (owner : Nat) (atom : Nat) (time : Nat)
deriving Repr, DecidableEq

/-- `systray_init` (src/systray.c lines 36-68).

`atom_name` is a stack buffer that is *uninitialized* when the first
`xutil_intern_atom` request is sent (line 45); the `snprintf` that formats
`"_NET_SYSTEM_TRAY_S%d"` runs only afterwards (line 46).  The buffer's
indeterminate initial contents are the parameter `uninit`.  External
replies as parameters: `tray_win` is the window `simplewindow_new` creates,
`manager_atom` and `systray_atom` are the interning replies.  The function
stores the tray window in the per-screen table and claims the selection;
the manager client-message event `ev` is filled but never sent in this
fragment. -/
def systray_init (conf : awesome_t) (uninit : String) (phys_screen : Nat)
    (tray_win : Nat) (manager_atom : Nat) (systray_atom : Nat) :
    awesome_t × List InitEffect :=
  let atom_name := uninit
  let e1 := InitEffect.internAtomRequest atom_name
  let atom_name := "_NET_SYSTEM_TRAY_S" ++ Nat.repr phys_screen
  let e2 := InitEffect.internAtomRequest atom_name
  let screens := conf.screens.set phys_screen { systray := some tray_win }
  ({ conf with screens := screens },
   [e1, e2, InitEffect.createSimpleWindow phys_screen,
    InitEffect.internAtomReply manager_atom,
    InitEffect.internAtomReply systray_atom,
    InitEffect.setSelectionOwner tray_win systray_atom XCB_CURRENT_TIME])

/-! ## Helper lemmas about the registry append -/

theorem any_win_append (l : List xembed_window_t) (em : xembed_window_t) :
    (xembed_window_list_append l em).any (fun e => e.win = em.win) = true := by
  unfold xembed_window_list_append
  by_cases h : l.any (fun e => e.win = em.win) = true
  · simp only [h, if_true]
    rw [List.any_eq_true] at h ⊢
    obtain ⟨x, hx, hpx⟩ := h
    refine ⟨em, ?_, by simp⟩
    rw [List.mem_map]
    exact ⟨x, hx, by simp [decide_eq_true_eq.mp hpx]⟩
  · simp only [h]
    simp

theorem length_append_present (l : List xembed_window_t) (em : xembed_window_t)
    (h : l.any (fun e => e.win = em.win) = true) :
    (xembed_window_list_append l em).length = l.length := by
  unfold xembed_window_list_append
  simp [h]

theorem find_map_update (l : List xembed_window_t) (em : xembed_window_t)
    (h : l.any (fun e => e.win = em.win) = true) :
    (l.map (fun e => if e.win = em.win then em else e)).find?
      (fun e => e.win = em.win) = some em := by
  induction l with
  | nil => simp at h
  | cons a l ih =>
    by_cases ha : a.win = em.win
    · simp [List.find?, ha]
    · have h' : l.any (fun e => e.win = em.win) = true := by
        simp only [List.any_cons, Bool.or_eq_true] at h
        rcases h with h | h
        · exact absurd (decide_eq_true_eq.mp h) ha
        · exact h
      simp [List.find?, ha, ih h']

theorem find_append_absent (l : List xembed_window_t) (em : xembed_window_t)
    (h : l.any (fun e => e.win = em.win) = false) :
    (l ++ [em]).find? (fun e => e.win = em.win) = some em := by
  induction l with
  | nil => simp [List.find?]
  | cons a l ih =>
    simp only [List.any_cons, Bool.or_eq_false_iff] at h
    have ha : ¬(a.win = em.win) := by
      intro hc
      simp [hc] at h
    rw [List.cons_append, List.find?_cons_of_neg, ih h.2]
    simpa using ha

theorem find_after_append (l : List xembed_window_t) (em : xembed_window_t) :
    (xembed_window_list_append l em).find? (fun e => e.win = em.win) = some em := by
  unfold xembed_window_list_append
  by_cases h : l.any (fun e => e.win = em.win) = true
  · simp only [h, if_true]
    exact find_map_update l em h
  · simp only [h, if_false, Bool.false_eq_true]
    exact find_append_absent l em (Bool.not_eq_true _ ▸ h)

theorem countP_map_update (l : List xembed_window_t) (em : xembed_window_t) :
    (l.map (fun e => if e.win = em.win then em else e)).countP
      (fun e => e.win = em.win) = l.countP (fun e => e.win = em.win) := by
  induction l with
  | nil => rfl
  | cons a l ih =>
    by_cases ha : a.win = em.win
    · simp [List.countP_cons, ha, ih]
    · simp [List.countP_cons, ha, ih]

/-! ## Helper lemmas about the handlers -/

theorem countP_after_append_present (l : List xembed_window_t)
    (em : xembed_window_t) (h : l.any (fun e => e.win = em.win) = true) :
    (xembed_window_list_append l em).countP (fun e => e.win = em.win) =
      l.countP (fun e => e.win = em.win) := by
  unfold xembed_window_list_append
  simp only [h, if_true]
  exact countP_map_update l em

theorem MIN_eq_min (a b : Nat) : MIN a b = Nat.min a b := by
  unfold MIN
  rcases Nat.lt_or_ge a b with h | h
  · rw [if_pos h]
    exact (Nat.min_eq_left (Nat.le_of_lt h)).symm
  · rw [if_neg (Nat.not_lt.mpr h)]
    exact (Nat.min_eq_right h).symm

theorem request_handle_embedded (conf : awesome_t) (V w s : Nat)
    (info : Option xembed_info_t) (q : xembed_info_t) :
    (systray_request_handle conf V w s info q).1.embedded =
      xembed_window_list_append conf.embedded ⟨w, s, info.getD q⟩ := by
  cases info <;> rfl

theorem request_handle_state (conf : awesome_t) (V w s : Nat)
    (info : Option xembed_info_t) (q : xembed_info_t) :
    (systray_request_handle conf V w s info q).1 =
      { conf with embedded :=
          xembed_window_list_append conf.embedded ⟨w, s, info.getD q⟩ } := by
  cases info <;> rfl

theorem request_handle_trace (conf : awesome_t) (L w s : Nat)
    (info : Option xembed_info_t) (q : xembed_info_t) :
    (systray_request_handle conf L w s info q).2.1 =
      Effect.changeWindowAttributes w select_input_val ::
      Effect.setState w XCB_WM_WITHDRAWN_STATE ::
      ((match (match conf.screens[s]? with
               | some sc => sc.systray
               | none => none) with
        | some tray =>
            [Effect.embeddedNotify w tray (MIN L (info.getD q).version)]
        | none => []) ++
       (if (info.getD q).flags &&& XEMBED_MAPPED ≠ 0
           then [Effect.mapWindow w] else []) ++
       (List.range conf.nscreen).map
         (fun j => Effect.invalidateCache j CacheKind.embedded)) := by
  cases info <;> rfl

theorem screen_root_scan_eq_of_first (roots : List Nat) (root n : Nat)
    (hn : n < roots.length) (hmatch : roots.getD n 0 = root)
    (hfirst : ∀ m, m < n → roots.getD m 0 ≠ root) :
    screen_root_scan roots root = n := by
  induction roots generalizing n with
  | nil => simp at hn
  | cons r rest ih =>
    cases n with
    | zero =>
      rw [List.getD_cons_zero] at hmatch
      simp [screen_root_scan, hmatch]
    | succ n =>
      have hr : r ≠ root := by
        have h0 := hfirst 0 (Nat.succ_pos n)
        rwa [List.getD_cons_zero] at h0
      have hn' : n < rest.length := by
        simp only [List.length_cons] at hn
        omega
      have hmatch' : rest.getD n 0 = root := by
        rwa [List.getD_cons_succ] at hmatch
      have hfirst' : ∀ m, m < n → rest.getD m 0 ≠ root := by
        intro m hm
        have := hfirst (m + 1) (Nat.succ_lt_succ hm)
        rwa [List.getD_cons_succ] at this
      simp only [screen_root_scan, if_neg hr, ih n hn' hmatch' hfirst']

theorem screen_root_scan_not_mem (roots : List Nat) (root : Nat)
    (h : root ∉ roots) : screen_root_scan roots root = roots.length := by
  induction roots with
  | nil => rfl
  | cons r rest ih =>
    simp only [List.mem_cons, not_or] at h
    have hr : r ≠ root := fun hc => h.1 hc.symm
    simp only [screen_root_scan, if_neg hr, ih h.2, List.length_cons]

theorem process_dock_embedded (conf : awesome_t) (roots : List Nat)
    (root V : Nat) (q : xembed_info_t) (w t : Nat) :
    (systray_process_client_message conf roots (some root) V q
        ⟨w, SYSTEM_TRAY_REQUEST_DOCK, t⟩).1.embedded =
      xembed_window_list_append conf.embedded
        ⟨t, screen_root_scan roots root, q⟩ := by
  rfl

theorem count_invalidate_range_of_ge (n i : Nat) (h : n ≤ i) :
    ((List.range n).map
        (fun j => Effect.invalidateCache j CacheKind.embedded)).count
      (Effect.invalidateCache i CacheKind.embedded) = 0 := by
  induction n with
  | zero => rfl
  | succ n ih =>
    rw [List.range_succ, List.map_append, List.count_append, ih (by omega)]
    have hne : ¬(n = i) := by omega
    simp [List.count_cons, List.count_nil, hne]

theorem count_invalidate_range_of_lt (n i : Nat) (h : i < n) :
    ((List.range n).map
        (fun j => Effect.invalidateCache j CacheKind.embedded)).count
      (Effect.invalidateCache i CacheKind.embedded) = 1 := by
  induction n with
  | zero => omega
  | succ n ih =>
    rw [List.range_succ, List.map_append, List.count_append]
    by_cases hi : i < n
    · rw [ih hi]
      have hne : ¬(n = i) := by omega
      simp [List.count_cons, List.count_nil, hne]
    · have hin : i = n := by omega
      subst hin
      rw [count_invalidate_range_of_ge i i (Nat.le_refl i)]
      simp [List.count_cons, List.count_nil]

theorem filter_invalidate_range (n : Nat) :
    ((List.range n).map
        (fun j => Effect.invalidateCache j CacheKind.embedded)).filter
      Effect.isInvalidate =
      (List.range n).map
        (fun j => Effect.invalidateCache j CacheKind.embedded) := by
  rw [List.filter_eq_self]
  intro a ha
  rw [List.mem_map] at ha
  obtain ⟨j, _, rfl⟩ := ha
  rfl

/-! ## Claim theorems -/

/-- C1: registering the same window handle twice through the dock-request
handler leaves the registry's length unchanged after the second call, the
entry found for that handle carries the second call's metadata (screen and
embed info), and the number of entries for the handle is unchanged by the
second call — the re-dock is a metadata update, not a duplicate. -/
theorem idempotent_registration (conf : awesome_t) (V1 V2 w s1 s2 : Nat)
    (i1 i2 : Option xembed_info_t) (q1 q2 : xembed_info_t) :
    ((systray_request_handle (systray_request_handle conf V1 w s1 i1 q1).1
        V2 w s2 i2 q2).1.embedded.length =
      (systray_request_handle conf V1 w s1 i1 q1).1.embedded.length) ∧
    ((systray_request_handle (systray_request_handle conf V1 w s1 i1 q1).1
        V2 w s2 i2 q2).1.embedded.find? (fun e => e.win = w) =
      some ⟨w, s2, i2.getD q2⟩) ∧
    ((systray_request_handle (systray_request_handle conf V1 w s1 i1 q1).1
        V2 w s2 i2 q2).1.embedded.countP (fun e => e.win = w) =
      (systray_request_handle conf V1 w s1 i1 q1).1.embedded.countP
        (fun e => e.win = w)) := by
  have e1 := request_handle_embedded conf V1 w s1 i1 q1
  have e2 := request_handle_embedded (systray_request_handle conf V1 w s1 i1 q1).1
    V2 w s2 i2 q2
  rw [e2, e1]
  exact ⟨length_append_present _ ⟨w, s2, i2.getD q2⟩
          (any_win_append conf.embedded ⟨w, s1, i1.getD q1⟩),
        find_after_append _ ⟨w, s2, i2.getD q2⟩,
        countP_after_append_present _ ⟨w, s2, i2.getD q2⟩
          (any_win_append conf.embedded ⟨w, s1, i1.getD q1⟩)⟩

/-- C2 counterexample: one screen whose root is 5, sender geometry root 7
(matching no entry).  The dock handler does not fail: it returns status 0
and registers the target window 42 at the out-of-range screen index 1,
refuting the claim that a no-match root yields a geometry-lookup failure
with nothing registered. -/
theorem screen_resolution_no_match_registers :
    ((systray_process_client_message ⟨[], [⟨some 10⟩], 1⟩ [5] (some 7) 1
        ⟨0, 0⟩ ⟨99, SYSTEM_TRAY_REQUEST_DOCK, 42⟩).2.2 = 0) ∧
    ((systray_process_client_message ⟨[], [⟨some 10⟩], 1⟩ [5] (some 7) 1
        ⟨0, 0⟩ ⟨99, SYSTEM_TRAY_REQUEST_DOCK, 42⟩).1.embedded =
      [⟨42, 1, ⟨0, 0⟩⟩]) := by
  decide

/-- C2 (amended): when the sender's geometry root matches the Nth entry of
the ordered root list and no earlier entry matches, the handler resolves
screen index N (0-based) and registers the target at screen N; when the
root matches no entry, the scan resolves the length of the list (an
out-of-range index) and the handler does not fail — it still registers the
target at that index and returns status 0. -/
theorem screen_resolution (roots : List Nat) (root : Nat) (conf : awesome_t)
    (V w t : Nat) (q : xembed_info_t) :
    (∀ n, n < roots.length → roots.getD n 0 = root →
      (∀ m, m < n → roots.getD m 0 ≠ root) →
      screen_root_scan roots root = n ∧
      (systray_process_client_message conf roots (some root) V q
          ⟨w, SYSTEM_TRAY_REQUEST_DOCK, t⟩).1.embedded =
        xembed_window_list_append conf.embedded ⟨t, n, q⟩) ∧
    (root ∉ roots →
      screen_root_scan roots root = roots.length ∧
      (systray_process_client_message conf roots (some root) V q
          ⟨w, SYSTEM_TRAY_REQUEST_DOCK, t⟩).2.2 = 0 ∧
      (systray_process_client_message conf roots (some root) V q
          ⟨w, SYSTEM_TRAY_REQUEST_DOCK, t⟩).1.embedded =
        xembed_window_list_append conf.embedded ⟨t, roots.length, q⟩) := by
  constructor
  · intro n hn hmatch hfirst
    have hscan := screen_root_scan_eq_of_first roots root n hn hmatch hfirst
    refine ⟨hscan, ?_⟩
    rw [process_dock_embedded, hscan]
  · intro hroot
    have hscan := screen_root_scan_not_mem roots root hroot
    exact ⟨hscan, rfl, by rw [process_dock_embedded, hscan]⟩

/-- C2 witness: with roots [4, 7], root 7 matches entry 1 and the scan
resolves 1; root 9 matches nothing, the scan resolves 2 and the handler
still registers the target at screen 2 with status 0. -/
theorem screen_resolution_witness :
    (screen_root_scan [4, 7] 7 = 1 ∧
      (systray_process_client_message ⟨[], [], 0⟩ [4, 7] (some 7) 1 ⟨0, 0⟩
          ⟨3, SYSTEM_TRAY_REQUEST_DOCK, 9⟩).1.embedded =
        xembed_window_list_append [] ⟨9, 1, ⟨0, 0⟩⟩) ∧
    (screen_root_scan [4, 7] 9 = 2 ∧
      (systray_process_client_message ⟨[], [], 0⟩ [4, 7] (some 9) 1 ⟨0, 0⟩
          ⟨3, SYSTEM_TRAY_REQUEST_DOCK, 9⟩).2.2 = 0 ∧
      (systray_process_client_message ⟨[], [], 0⟩ [4, 7] (some 9) 1 ⟨0, 0⟩
          ⟨3, SYSTEM_TRAY_REQUEST_DOCK, 9⟩).1.embedded =
        xembed_window_list_append [] ⟨9, 2, ⟨0, 0⟩⟩) :=
  ⟨(screen_resolution [4, 7] 7 ⟨[], [], 0⟩ 1 3 9 ⟨0, 0⟩).1 1 (by decide)
      (by decide)
      (fun m hm => by
        have hm0 : m = 0 := by omega
        subst hm0
        decide),
   (screen_resolution [4, 7] 9 ⟨[], [], 0⟩ 1 3 9 ⟨0, 0⟩).2 (by decide)⟩

/-- C4: every embedded-notification handshake issued by the dock handler
carries protocol version `min L C`, where L is the locally supported
version and C the effective client-claimed version; in particular the
`MIN` negotiation yields `MIN 3 1 = 1` and `MIN 1 5 = 1`. -/
theorem version_negotiation_min (conf : awesome_t) (L w s : Nat)
    (info : Option xembed_info_t) (q : xembed_info_t) (ww tray v : Nat)
    (h : Effect.embeddedNotify ww tray v ∈
      (systray_request_handle conf L w s info q).2.1) :
    v = Nat.min L (info.getD q).version ∧ MIN 3 1 = 1 ∧ MIN 1 5 = 1 := by
  refine ⟨?_, rfl, rfl⟩
  rw [request_handle_trace] at h
  rcases htray : (match conf.screens[s]? with
    | some sc => sc.systray
    | none => none) with _ | tr
  · rw [htray] at h
    by_cases hmap : ((info.getD q).flags &&& XEMBED_MAPPED ≠ 0) <;>
      simp [hmap] at h
  · rw [htray] at h
    by_cases hmap : ((info.getD q).flags &&& XEMBED_MAPPED ≠ 0)
    · simp [hmap] at h
      rw [h.2.2, MIN_eq_min]
    · simp [hmap] at h
      rw [h.2.2, MIN_eq_min]

/-- C4 witness: one screen with tray window 8, local version 3, client
version 1 — the handshake carried in the trace has version 1 = min 3 1. -/
theorem version_negotiation_min_witness :
    (1 : Nat) = Nat.min 3
      (((some (⟨1, 0⟩ : xembed_info_t)).getD ⟨0, 0⟩).version) ∧
    MIN 3 1 = 1 ∧ MIN 1 5 = 1 :=
  version_negotiation_min ⟨[], [⟨some 8⟩], 1⟩ 3 5 0 (some ⟨1, 0⟩) ⟨0, 0⟩
    5 8 1 (by decide)

/-- C5: a dock handled by `systray_request_handle` (which always returns
the success sentinel 0) issues as its cache invalidations exactly one
embedded-kind call per screen of the whole screen table — the invalidation
sub-trace is `[invalidate 0, …, invalidate (nscreen-1)]` regardless of the
target screen, and each screen's call appears exactly once. -/
theorem cache_invalidation_fanout (conf : awesome_t) (L w s : Nat)
    (info : Option xembed_info_t) (q : xembed_info_t) (i : Nat)
    (h : i < conf.nscreen) :
    (systray_request_handle conf L w s info q).2.2 = 0 ∧
    (systray_request_handle conf L w s info q).2.1.filter
        Effect.isInvalidate =
      (List.range conf.nscreen).map
        (fun j => Effect.invalidateCache j CacheKind.embedded) ∧
    (systray_request_handle conf L w s info q).2.1.count
      (Effect.invalidateCache i CacheKind.embedded) = 1 := by
  refine ⟨by cases info <;> rfl, ?_, ?_⟩
  · rw [request_handle_trace]
    rcases htray : (match conf.screens[s]? with
      | some sc => sc.systray
      | none => none) with _ | tr <;>
      rw [htray] <;>
      by_cases hmap : ((info.getD q).flags &&& XEMBED_MAPPED ≠ 0) <;>
      simp [hmap, Effect.isInvalidate, List.filter_append,
        filter_invalidate_range]
  · rw [request_handle_trace]
    have h1 := count_invalidate_range_of_lt conf.nscreen i h
    rcases htray : (match conf.screens[s]? with
      | some sc => sc.systray
      | none => none) with _ | tr <;>
      rw [htray] <;>
      by_cases hmap : ((info.getD q).flags &&& XEMBED_MAPPED ≠ 0) <;>
      simp [hmap, List.count_cons, List.count_append, List.count_nil, h1]

/-- C5 witness: two screens, dock on screen 0 with no tray window — the
invalidation sub-trace covers both screens and screen 0's call appears
exactly once. -/
theorem cache_invalidation_fanout_witness :
    (systray_request_handle ⟨[], [], 2⟩ 1 5 0 none ⟨0, 0⟩).2.2 = 0 ∧
    (systray_request_handle ⟨[], [], 2⟩ 1 5 0 none ⟨0, 0⟩).2.1.filter
        Effect.isInvalidate =
      (List.range 2).map
        (fun j => Effect.invalidateCache j CacheKind.embedded) ∧
    (systray_request_handle ⟨[], [], 2⟩ 1 5 0 none ⟨0, 0⟩).2.1.count
      (Effect.invalidateCache 0 CacheKind.embedded) = 1 :=
  cache_invalidation_fanout ⟨[], [], 2⟩ 1 5 0 none ⟨0, 0⟩ 0 (by decide)

/-- C9: docking onto a screen whose owner record holds no tray window (NULL
systray) still performs the full dock — event-mask subscription, withdrawn
transition, registry append, flag-conditional map, per-screen cache
invalidations — skips only the embedded-notification handshake, and
returns the success sentinel 0. -/
theorem dock_without_tray (conf : awesome_t) (L w s : Nat)
    (info : Option xembed_info_t) (q : xembed_info_t)
    (h : conf.screens[s]? = some { systray := none }) :
    systray_request_handle conf L w s info q =
      ({ conf with embedded :=
          xembed_window_list_append conf.embedded ⟨w, s, info.getD q⟩ },
       Effect.changeWindowAttributes w select_input_val ::
         Effect.setState w XCB_WM_WITHDRAWN_STATE ::
         ((if (info.getD q).flags &&& XEMBED_MAPPED ≠ 0
             then [Effect.mapWindow w] else []) ++
          (List.range conf.nscreen).map
            (fun j => Effect.invalidateCache j CacheKind.embedded)),
       0) ∧
    (systray_request_handle conf L w s info q).2.1.filter Effect.isNotify =
      [] := by
  constructor
  · cases info <;> simp [systray_request_handle, h, Option.getD]
  · rw [request_handle_trace, h]
    by_cases hmap : ((info.getD q).flags &&& XEMBED_MAPPED ≠ 0) <;>
      simp [hmap, Effect.isNotify, List.filter_append, List.filter_eq_nil_iff]

/-- C9 witness: one screen with a NULL systray — the dock of window 7 with
a mapped flag clear yields the subscription, the withdrawn transition, the
single-screen invalidation, status 0, and no handshake. -/
theorem dock_without_tray_witness :
    (systray_request_handle ⟨[], [⟨none⟩], 1⟩ 2 7 0 none ⟨4, 2⟩ =
      (⟨[⟨7, 0, ⟨4, 2⟩⟩], [⟨none⟩], 1⟩,
       [Effect.changeWindowAttributes 7 select_input_val,
        Effect.setState 7 XCB_WM_WITHDRAWN_STATE,
        Effect.invalidateCache 0 CacheKind.embedded],
       0)) ∧
    (systray_request_handle ⟨[], [⟨none⟩], 1⟩ 2 7 0 none ⟨4, 2⟩).2.1.filter
      Effect.isNotify = [] :=
  dock_without_tray ⟨[], [⟨none⟩], 1⟩ 2 7 0 none ⟨4, 2⟩ rfl

/-- C3: on a dock-request message whose geometry query returns no reply,
`systray_process_client_message` returns a negative status and leaves the
whole global state (in particular the registry) exactly as it was; the only
collaborator call issued is the geometry query itself. -/
theorem systray_geom_failure_aborts (conf : awesome_t) (roots : List Nat)
    (V : Nat) (q : xembed_info_t) (w t : Nat) :
    (systray_process_client_message conf roots none V q
        ⟨w, SYSTEM_TRAY_REQUEST_DOCK, t⟩).2.2 < 0 ∧
    (systray_process_client_message conf roots none V q
        ⟨w, SYSTEM_TRAY_REQUEST_DOCK, t⟩).1 = conf ∧
    (systray_process_client_message conf roots none V q
        ⟨w, SYSTEM_TRAY_REQUEST_DOCK, t⟩).2.1 = [Effect.getGeometry w] := by
  refine ⟨?_, rfl, rfl⟩
  simp [systray_process_client_message, SYSTEM_TRAY_REQUEST_DOCK]

/-- C7: `systray_request_handle` issues a map-window transition for the
embedded window exactly when the effective embedding metadata (the caller's
`info` if supplied, else the queried property value) has the
`XEMBED_MAPPED` bit set, all other inputs being equal. -/
theorem visibility_follows_flag (conf : awesome_t) (L w s : Nat)
    (info : Option xembed_info_t) (q : xembed_info_t) :
    Effect.mapWindow w ∈ (systray_request_handle conf L w s info q).2.1 ↔
      (info.getD q).flags &&& XEMBED_MAPPED ≠ 0 := by
  unfold systray_request_handle
  cases info <;>
    cases hs : conf.screens[s]? with
    | none => simp [Option.getD]
    | some sc => cases hsys : sc.systray <;> simp [Option.getD, hsys]

/-- C8: `xembed_process_client_message` never mutates the global state (in
particular the registry), always returns 0, issues the focus-grant
directive with the fixed `XEMBED_FOCUS_CURRENT` constant exactly when the
sub-message code is `XEMBED_REQUEST_FOCUS`, and issues nothing at all for
any other sub-message code. -/
theorem xembed_focus_isolation (conf : awesome_t)
    (ev : xcb_client_message_event_t) :
    (xembed_process_client_message conf ev).1 = conf ∧
    (xembed_process_client_message conf ev).2.2 = 0 ∧
    (Effect.focusIn ev.window XEMBED_FOCUS_CURRENT ∈
        (xembed_process_client_message conf ev).2.1 ↔
      ev.data1 = XEMBED_REQUEST_FOCUS) ∧
    (ev.data1 ≠ XEMBED_REQUEST_FOCUS →
      (xembed_process_client_message conf ev).2.1 = []) := by
  unfold xembed_process_client_message
  by_cases h : ev.data1 = XEMBED_REQUEST_FOCUS <;> simp [h]

/-- C8 witness: a concrete non-focus sub-message code (code 7) yields an
unchanged state, status 0, no focus directive, and an empty effect trace. -/
theorem xembed_focus_isolation_witness :
    (xembed_process_client_message ⟨[], [], 1⟩ ⟨5, 7, 0⟩).1 = ⟨[], [], 1⟩ ∧
    (xembed_process_client_message ⟨[], [], 1⟩ ⟨5, 7, 0⟩).2.2 = 0 ∧
    (xembed_process_client_message ⟨[], [], 1⟩ ⟨5, 7, 0⟩).2.1 = [] :=
  ⟨(xembed_focus_isolation ⟨[], [], 1⟩ ⟨5, 7, 0⟩).1,
   (xembed_focus_isolation ⟨[], [], 1⟩ ⟨5, 7, 0⟩).2.1,
   (xembed_focus_isolation ⟨[], [], 1⟩ ⟨5, 7, 0⟩).2.2.2 (by decide)⟩

/-- C10: on a request-focus sub-message, the focus grant is sent to the
sender window unconditionally — the handler consults neither the registry
nor any other part of the global state, so a never-docked window receives
the same grant and the trace and status are identical for any two states. -/
theorem focus_grant_no_membership_check (conf1 conf2 : awesome_t)
    (w t : Nat) :
    (xembed_process_client_message conf1 ⟨w, XEMBED_REQUEST_FOCUS, t⟩).2.1 =
      [Effect.focusIn w XEMBED_FOCUS_CURRENT] ∧
    (xembed_process_client_message conf1 ⟨w, XEMBED_REQUEST_FOCUS, t⟩).2.1 =
      (xembed_process_client_message conf2 ⟨w, XEMBED_REQUEST_FOCUS, t⟩).2.1 ∧
    (xembed_process_client_message conf1 ⟨w, XEMBED_REQUEST_FOCUS, t⟩).2.2 =
      (xembed_process_client_message conf2 ⟨w, XEMBED_REQUEST_FOCUS, t⟩).2.2 := by
  refine ⟨?_, rfl, rfl⟩
  simp [xembed_process_client_message]

/-- C6 (code evaluated at the failing input): the first atom-interning
request of `systray_init` carries the *indeterminate pre-`snprintf`
contents* of the `atom_name` buffer — whatever string `junk` happens to sit
there — not the manager-broadcast atom name; the second request does carry
`"_NET_SYSTEM_TRAY_S<screen>"`, and the selection is claimed with the new
tray window at `XCB_CURRENT_TIME`. -/
theorem systray_init_first_request_uninitialized (conf : awesome_t)
    (junk : String) (ps tw ma sa : Nat) :
    (systray_init conf junk ps tw ma sa).2.head? =
      some (InitEffect.internAtomRequest junk) ∧
    (systray_init conf junk ps tw ma sa).2[1]? =
      some (InitEffect.internAtomRequest ("_NET_SYSTEM_TRAY_S" ++ Nat.repr ps)) ∧
    (systray_init conf junk ps tw ma sa).2.getLast? =
      some (InitEffect.setSelectionOwner tw sa XCB_CURRENT_TIME) ∧
    ((systray_init conf junk ps tw ma sa).1.screens =
      conf.screens.set ps { systray := some tw }) := by
  refine ⟨rfl, rfl, ?_, rfl⟩
  simp [systray_init]

end Systray
